import Mathlib

/-!
Shallow embedding of the `craig` terminal dashboard (Rust sources under
`src/src/`): the server-status registry (`core/server.rs`), the selection
and navigation state, the render composer helpers (`core/app.rs`), and the
bar-color computation, together with theorems settling the specification
claims about them.

Machine-arithmetic conventions: Rust `u64` fields are modelled as `Nat`
(no operation here can overflow 64 bits except where noted); the `u64 → u16`
cast in the layout code is modelled by an explicit `% 65536`; the `f32 → u8`
cast is modelled on exact rational arithmetic, truncating toward zero and
saturating at 0 and 255, which is the Rust cast semantics.
-/

namespace Craig

/-- JSON values, modelling the `serde_json::Value` instances flowing through
`ServerState::update` (src/src/core/server.rs). Numbers are modelled as
integers; no floating-point literal occurs in any flow treated here. -/
inductive Json where
  | null : Json
  | bool (b : Bool) : Json
  | num (n : Int) : Json
  | str (s : String) : Json
  | arr (elems : List Json) : Json
  | obj (fields : List (String × Json)) : Json

/-- `serde_json` indexing `value[key]`: field lookup on objects, `Null` for a
missing key or a non-object receiver (never a panic for shared indexing). -/
def Json.index : Json → String → Json
  | .obj fields, key =>
      match fields.find? (fun f => f.1 = key) with
      | some f => f.2
      | none => .null
  | _, _ => .null

/-- `Value::as_bool`: `Some` exactly on booleans. -/
def Json.as_bool : Json → Option Bool
  | .bool b => some b
  | _ => none

/-- `Value::as_u64`: `Some` exactly on non-negative integer numbers. -/
def Json.as_u64 : Json → Option Nat
  | .num n => if 0 ≤ n then some n.toNat else none
  | _ => none

/-- `Value::as_array`: `Some` exactly on arrays. -/
def Json.as_array : Json → Option (List Json)
  | .arr elems => some elems
  | _ => none

/-- Hex digit for JSON control-character escapes. -/
def hexDigit (n : Nat) : Char :=
  if n < 10 then Char.ofNat (48 + n) else Char.ofNat (87 + n)

/-- Escape one character as in `serde_json`'s compact serializer. -/
def escapeChar (c : Char) : String :=
  if c = '"' then "\\\""
  else if c = '\\' then "\\\\"
  else if c = '\n' then "\\n"
  else if c = '\r' then "\\r"
  else if c = '\t' then "\\t"
  else if c.toNat < 32 then
    "\\u00" ++ String.mk [hexDigit (c.toNat / 16), hexDigit (c.toNat % 16)]
  else String.singleton c

/-- A JSON string literal: surrounding quotes plus escapes. -/
def escapeString (s : String) : String :=
  "\"" ++ String.join (s.toList.map escapeChar) ++ "\""

mutual

/-- `Value::to_string()` (the `Display` impl): compact JSON serialization.
In particular a JSON string serializes WITH its surrounding quotes. -/
def Json.serialize : Json → String
  | .null => "null"
  | .bool true => "true"
  | .bool false => "false"
  | .num n => toString n
  | .str s => escapeString s
  | .arr elems => "[" ++ Json.serializeElems elems ++ "]"
  | .obj fields => "\x7b" ++ Json.serializeFields fields ++ "\x7d"

/-- Comma-separated serialization of array elements. -/
def Json.serializeElems : List Json → String
  | [] => ""
  | [x] => Json.serialize x
  | x :: y :: rest => Json.serialize x ++ "," ++ Json.serializeElems (y :: rest)

/-- Comma-separated serialization of object fields. -/
def Json.serializeFields : List (String × Json) → String
  | [] => ""
  | [(k, v)] => escapeString k ++ ":" ++ Json.serialize v
  | (k, v) :: g :: rest =>
      escapeString k ++ ":" ++ Json.serialize v ++ "," ++ Json.serializeFields (g :: rest)

end

/-- `ServerState` (src/src/core/server.rs, lines 7–13). Note the struct has
exactly these five fields; there is no error field of any kind. -/
structure ServerState where
  ip : String
  status : Bool
  player_count : Nat
  max_players : Nat
  players : List String
deriving Repr, DecidableEq

/-- `ServerState::new` (server.rs 16–24): default values before any fetch. -/
def ServerState.new (ip : String) : ServerState :=
  { ip := ip, status := false, player_count := 0, max_players := 0, players := [] }

/-- The field assignments of `ServerState::update` (server.rs 35–44), run only
after the HTTP call and JSON decode both succeeded with body `response`:
each lookup defaults (`unwrap_or`) instead of failing, `players` is rebuilt
from scratch, and each name is `player["name_clean"].to_string()` — the
`Display` serialization of that JSON value. -/
def ServerState.updateApply (s : ServerState) (response : Json) : ServerState :=
  { s with
    status := ((response.index "online").as_bool).getD false
    player_count := (((response.index "players").index "online").as_u64).getD 0
    max_players := (((response.index "players").index "max").as_u64).getD 0
    players :=
      match ((response.index "players").index "list").as_array with
      | some players => players.map (fun player => (player.index "name_clean").serialize)
      | none => [] }

/-- `ServerState::update` (server.rs 26–47). The network fetch and JSON decode
are the external collaborator; their outcome is the explicit `fetch` argument.
On `error` the `?` operator returns before any field assignment, so the state
is unchanged and the error is returned to the caller; on `ok` the assignments
of `updateApply` run and `Ok(())` is returned. -/
def ServerState.update (s : ServerState) (fetch : Except String Json) :
    ServerState × Except String Unit :=
  match fetch with
  | .error e => (s, .error e)
  | .ok response => (s.updateApply response, .ok ())

/-- `App::list_state_next` (src/src/core/app.rs 135–147) on the selection
state. `len` is `self.ips.len()` (always 3 in the running program); `sel` is
`self.list_state.selected()`. The result is always `select(Some(i))`. The
`len - 1` is Rust `usize` subtraction, which for `len = 0` would panic in
debug and wrap in release; the running program always has `len = 3`, and we
model the subtraction as the `Nat` truncated one (`0 - 1 = 0`), which agrees
with the source whenever `len > 0`. -/
def list_state_next (len : Nat) (sel : Option Nat) : Option Nat :=
  some
    (match sel with
    | some i => if i ≥ len - 1 then 0 else i + 1
    | none => 0)

/-- `App::list_state_previous` (src/src/core/app.rs 149–161). -/
def list_state_previous (len : Nat) (sel : Option Nat) : Option Nat :=
  some
    (match sel with
    | some i => if i = 0 then len - 1 else i - 1
    | none => 0)

/-- The text lines built by `App::server_details` (app.rs 193–210) for one
server state: status line, player-count line, `"Players:"` header, then one
tab-indented line per player name. -/
def server_details_lines (s : ServerState) : List String :=
  (if s.status then "Status: Online" else "Status: Offline")
    :: ("Player Count: " ++ toString s.player_count ++ " / " ++ toString s.max_players)
    :: "Players:"
    :: s.players.map (fun player => "\t" ++ player)

/-- `App::server_details` (app.rs 186–214): picks the selected index
(defaulting to 0 when nothing is selected) and renders that entry's lines.
Rust's `self.server_states[index]` panics when out of bounds; the panic is
modelled as `none`. -/
def server_details (states : List ServerState) (sel : Option Nat) :
    Option (List String) :=
  let index := match sel with
    | some i => i
    | none => 0
  match states[index]? with
  | some s => some (server_details_lines s)
  | none => none

/-- The mutation `App::player_list` (app.rs 216–222) performs on
`self.server_states` before building the list rows: it calls
`ServerState::update` on every entry in order (ignoring each entry's error
result — `Err(_) => continue`). `fetches` gives each entry's fetch outcome. -/
def player_list_update (states : List ServerState)
    (fetches : List (Except String Json)) : List ServerState :=
  List.zipWith (fun s fetch => (s.update fetch).1) states fetches

/-- The row texts of `App::player_list` (app.rs 224–230), built from the
post-update states: `"<ip> - <player_count>"` per entry. -/
def player_list_rows (ips : List String) (states : List ServerState) :
    List String :=
  (List.zip ips states).map
    (fun p => p.1 ++ " - " ++ toString p.2.player_count)

/-- The application state the render path reads and writes: the fields of
`App` (app.rs 52–60) relevant to frame building, with the two snapshots
inlined from `SystemStats` (app.rs 24–31). -/
structure AppModel where
  ips : List String
  server_states : List ServerState
  selected : Option Nat
  cpu_usages : List ℚ
  mem_usage : Nat
  max_mem : Nat
deriving Repr, DecidableEq

/-- The state change performed by one call of `App::render` (app.rs 163–184):
`render` clones the list state (selection unchanged), renders the cpu chart
(reads only), and calls `self.player_list()` — which runs a network
`ServerState::update` against every entry in place. `fetches` gives those
per-entry fetch outcomes. Only `server_states` is written. -/
def render_effect (a : AppModel) (fetches : List (Except String Json)) :
    AppModel :=
  { a with server_states := player_list_update a.server_states fetches }

/-- Rust `as u8` applied to a non-NaN float value: truncate toward zero and
saturate into `[0, 255]`, on the exact rational value. -/
def f32_as_u8 (x : ℚ) : Nat :=
  if x ≤ 0 then 0 else min 255 (Int.toNat ⌊x⌋)

/-- `App::bar_color` (app.rs 291–296): the `(red, green, blue)` components of
the bar's RGB color for a usage value; blue is the literal 0. The same
formulas are repeated inline for the memory bar (app.rs 260–261) with
`percent = value / 100`. -/
def bar_color (value : ℚ) : Nat × Nat × Nat :=
  (f32_as_u8 (255 * (value / 100)), f32_as_u8 (255 * (1 - value / 100)), 0)

/-- The height requested for the system section in `App::render`
(app.rs 164–168): `count = cpu_count + 1 + 2` computed in `u64`, then passed
to `Constraint::Length(count as u16)` — the `u64 → u16` cast truncates
modulo 2^16. -/
def system_section_height (cpu_count : Nat) : Nat :=
  (cpu_count + 1 + 2) % 65536

/-- The number of rows `App::cpu_chart` (app.rs 240–279) needs: one bar per
entry of `cpu_usages` (bar_width 1, bar_gap 0, horizontal direction), plus
one memory bar, plus 2 rows of the bordered block. -/
def cpu_chart_rows (cpu_usages : List ℚ) : Nat :=
  (cpu_usages.length + 1) + 2

/-- The status JSON of §8 of the spec:
`{"online": true, "players": {"online": 5, "max": 20, "list": [{"name_clean":"Alice"}]}}`. -/
def jsonAlice : Json :=
  .obj [("online", .bool true),
        ("players", .obj [("online", .num 5), ("max", .num 20),
                          ("list", .arr [.obj [("name_clean", .str "Alice")]])])]

/-- The status JSON `{"online": false}` with no `players` key. -/
def jsonOfflineOnly : Json := .obj [("online", .bool false)]

/-- The application state right after `App::run`'s initialization
(app.rs 79–92): the three compiled-in addresses, one fresh `ServerState`
per address, index 0 selected. -/
def app0 : AppModel :=
  { ips := ["129.80.58.106:8080", "129.80.58.106:8081", "129.80.58.106:8082"]
    server_states :=
      [ServerState.new "129.80.58.106:8080",
       ServerState.new "129.80.58.106:8081",
       ServerState.new "129.80.58.106:8082"]
    selected := some 0
    cpu_usages := []
    mem_usage := 0
    max_mem := 0 }

/-- A previously-populated entry, for exercising updates on non-default
state. -/
def sBob : ServerState :=
  { ip := "129.80.58.106:8080", status := true, player_count := 5,
    max_players := 20, players := ["\"Bob\""] }

/-- Claim C1: the claim says producing a frame has no side effects on the
server registry, the snapshots or the selection. The code contradicts it:
`App::render` calls `App::player_list` (app.rs 182, 216–222), which runs
`ServerState::update` — a network fetch that rewrites the entry's status
fields in place — on every registry entry. Evaluated at the initialized
application state with one successful fetch: the registry after one render
differs from the registry before it (entry 0's status fields are replaced),
refuting the no-side-effects claim. -/
theorem render_fetches_and_mutates_entries :
    (render_effect app0
        [Except.ok jsonAlice, Except.error "timeout", Except.error "timeout"]
      ).server_states ≠ app0.server_states
    ∧ (render_effect app0
        [Except.ok jsonAlice, Except.error "timeout", Except.error "timeout"]
      ).server_states.get? 0
        = some { ip := "129.80.58.106:8080", status := true, player_count := 5,
                 max_players := 20, players := ["\"Alice\""] } := by
  decide

/-- Claim C3, counterexample: the claim says a failed update sets the entry's
`last_update_error`. `ServerState` (server.rs 7–13) has no error field at
all: at the concrete entry `sBob`, a failed update leaves the entry exactly
equal to its prior value, and two updates failing with different errors
leave identical entries — the entry records nothing about the error, so
nothing on it is set. -/
theorem update_failure_records_nothing :
    (sBob.update (.error "timeout")).1 = sBob
    ∧ (sBob.update (.error "connection refused")).1
        = (sBob.update (.error "timeout")).1 := by
  decide

/-- Claim C3, amended: when a remote-status update fails, the entry is left
entirely unchanged (byte-for-byte) and the error is only returned to the
caller (which discards it; the entry has no `last_update_error` field to
set); when it succeeds, the status fields are replaced wholesale — the
result does not depend on the entry's prior status fields — and `Ok(())` is
returned. -/
theorem update_fail_keeps_success_replaces (s t : ServerState) (e : String)
    (j : Json) (hip : s.ip = t.ip) :
    (s.update (.error e)).1 = s
    ∧ (s.update (.error e)).2 = Except.error e
    ∧ (s.update (.ok j)).1 = (t.update (.ok j)).1
    ∧ (s.update (.ok j)).2 = Except.ok () := by
  cases s
  cases t
  simp_all [ServerState.update, ServerState.updateApply]

/-- Claim C3, witness for the amended theorem at concrete entries `sBob`
and a fresh entry with the same address. -/
theorem update_fail_keeps_success_replaces_witness :
    (sBob.update (.error "timeout")).1 = sBob
    ∧ (sBob.update (.error "timeout")).2 = Except.error "timeout"
    ∧ (sBob.update (.ok jsonAlice)).1
        = ((ServerState.new "129.80.58.106:8080").update (.ok jsonAlice)).1
    ∧ (sBob.update (.ok jsonAlice)).2 = Except.ok () :=
  update_fail_keeps_success_replaces sBob (ServerState.new "129.80.58.106:8080")
    "timeout" jsonAlice rfl

/-- Claim C4, counterexample: parsing the Alice status JSON does not yield
the players list `["Alice"]`: the code stores
`player["name_clean"].to_string()`, the `Display` serialization of the JSON
value, which keeps the surrounding quotes, so the stored name is the
6-character string `"Alice"` (quotes included). -/
theorem parse_alice_players_not_plain :
    ((ServerState.new "a").update (.ok jsonAlice)).1.players = ["\"Alice\""]
    ∧ ((ServerState.new "a").update (.ok jsonAlice)).1.players ≠ ["Alice"] := by
  decide

/-- Claim C4, amended: parsing the Alice status JSON yields `online = true`,
`player_count = 5`, `max_players = 20`, and the one-element players list
whose entry is the JSON serialization of the name — `"Alice"` with its
quotes; parsing `{"online": false}` with no `players` key yields all default
values (`false`/`0`/`0`/empty) and succeeds (missing fields default, never
failing the whole parse). -/
theorem parse_status_examples :
    ((ServerState.new "a").update (.ok jsonAlice)).1
      = { ip := "a", status := true, player_count := 5, max_players := 20,
          players := ["\"Alice\""] }
    ∧ ((ServerState.new "a").update (.ok jsonAlice)).2 = Except.ok ()
    ∧ ((ServerState.new "a").update (.ok jsonOfflineOnly)).1
      = { ip := "a", status := false, player_count := 0, max_players := 0,
          players := [] }
    ∧ ((ServerState.new "a").update (.ok jsonOfflineOnly)).2 = Except.ok () :=
  ⟨by decide, rfl, by decide, rfl⟩

/-- Claim C6: for a selection over `count > 0` entries with selected index
`i < count`, `next` advances by one, wrapping to 0 from the last valid index,
and `previous` decrements, wrapping to the last valid index from 0; for
`count = 3` starting at 0, three consecutive `previous` calls visit 2, 1, 0
and three consecutive `next` calls visit 1, 2, 0, each returning to the
start. -/
theorem selection_wraps (count i : Nat) (hc : 0 < count) (hi : i < count) :
    list_state_next count (some i) = some (if i = count - 1 then 0 else i + 1)
    ∧ list_state_previous count (some i)
        = some (if i = 0 then count - 1 else i - 1)
    ∧ (list_state_next 3 (some 0) = some 1 ∧ list_state_next 3 (some 1) = some 2
        ∧ list_state_next 3 (some 2) = some 0)
    ∧ (list_state_previous 3 (some 0) = some 2
        ∧ list_state_previous 3 (some 2) = some 1
        ∧ list_state_previous 3 (some 1) = some 0) := by
  refine ⟨?_, rfl, by decide, by decide⟩
  simp only [list_state_next]
  rcases eq_or_ne i (count - 1) with h | h
  · rw [if_pos (by omega), if_pos h]
  · rw [if_neg (by omega), if_neg h]

/-- Claim C6, witness at `count = 3`, `i = 1`. -/
theorem selection_wraps_witness :
    list_state_next 3 (some 1) = some (if 1 = 3 - 1 then 0 else 1 + 1)
    ∧ list_state_previous 3 (some 1) = some (if 1 = 0 then 3 - 1 else 1 - 1)
    ∧ (list_state_next 3 (some 0) = some 1 ∧ list_state_next 3 (some 1) = some 2
        ∧ list_state_next 3 (some 2) = some 0)
    ∧ (list_state_previous 3 (some 0) = some 2
        ∧ list_state_previous 3 (some 2) = some 1
        ∧ list_state_previous 3 (some 1) = some 0) :=
  selection_wraps 3 1 (by decide) (by decide)

/-- Claim C10: when no entry is selected (`selected()` is `None`), both
`next` and `previous` select index 0, for every list length. -/
theorem empty_selection_selects_zero (len : Nat) :
    list_state_next len none = some 0 ∧ list_state_previous len none = some 0 :=
  ⟨rfl, rfl⟩

/-- For values in `[0, 255]`, the Rust `as u8` cast is exactly
floor-then-`toNat`: neither the zero clamp nor the 255 clamp changes it. -/
theorem f32_as_u8_floor (x : ℚ) (h0 : 0 ≤ x) (h255 : x ≤ 255) :
    f32_as_u8 x = (⌊x⌋).toNat := by
  unfold f32_as_u8
  split
  · have hx0 : x = 0 := le_antisymm (by assumption) h0
    simp [hx0]
  · have hfl : ⌊x⌋ ≤ 255 := by
      have h := Int.floor_le_floor h255
      simpa using h
    omega

/-- Claim C5, counterexample: at `v = 50`, both color components are
`2.55 * 50 = 127.5` before the cast, and Rust `as u8` truncates (toward
zero), so the code produces `red = 127`, not the claimed
`red = round(2.55 * 50) = 128`. -/
theorem bar_color_half_is_127 :
    bar_color 50 = (127, 127, 0) ∧ bar_color 50 ≠ (128, 127, 0) := by
  have main : bar_color 50 = (127, 127, 0) := by
    have h1 : (255 * (50 / 100 : ℚ)) = 255 / 2 := by norm_num
    have h2 : (255 * (1 - 50 / 100 : ℚ)) = 255 / 2 := by norm_num
    have hf : ⌊(255 / 2 : ℚ)⌋ = 127 := by
      rw [Int.floor_eq_iff]
      norm_num
    unfold bar_color f32_as_u8
    rw [h1, h2, hf]
    norm_num
    decide
  exact ⟨main, by rw [main]; decide⟩

/-- Claim C5, amended: for every usage value `v` in `[0, 100]` the bar color
is `red = ⌊2.55 * v⌋`, `green = ⌊2.55 * (100 - v)⌋`, `blue = 0` — the cast
truncates rather than rounds to nearest; in particular `v = 0` gives pure
green `(0, 255, 0)`, `v = 100` gives pure red `(255, 0, 0)`, and `v = 50`
gives `red = 127`, `green = 127`, `blue = 0`. -/
theorem bar_color_truncates (v : ℚ) (h0 : 0 ≤ v) (h1 : v ≤ 100) :
    bar_color v = ((⌊255 * v / 100⌋).toNat, (⌊255 * (100 - v) / 100⌋).toNat, 0)
    ∧ bar_color 0 = (0, 255, 0)
    ∧ bar_color 100 = (255, 0, 0)
    ∧ bar_color 50 = (127, 127, 0) := by
  refine ⟨?_, ?_, ?_, ?_⟩
  · unfold bar_color
    have e1 : (255 : ℚ) * (v / 100) = 255 * v / 100 := by ring
    have e2 : (255 : ℚ) * (1 - v / 100) = 255 * (100 - v) / 100 := by ring
    rw [e1, e2, f32_as_u8_floor _ (by positivity) (by linarith),
        f32_as_u8_floor _ (by linarith) (by linarith)]
  · have e1 : (255 * (0 / 100 : ℚ)) = 0 := by norm_num
    have e2 : (255 * (1 - 0 / 100 : ℚ)) = 255 := by norm_num
    have hf : ⌊(255 : ℚ)⌋ = 255 := by
      rw [Int.floor_eq_iff]
      norm_num
    unfold bar_color f32_as_u8
    rw [e1, e2, hf]
    norm_num
  · have e1 : (255 * (100 / 100 : ℚ)) = 255 := by norm_num
    have e2 : (255 * (1 - 100 / 100 : ℚ)) = 0 := by norm_num
    have hf : ⌊(255 : ℚ)⌋ = 255 := by
      rw [Int.floor_eq_iff]
      norm_num
    unfold bar_color f32_as_u8
    rw [e1, e2, hf]
    norm_num
  · have e1 : (255 * (50 / 100 : ℚ)) = 255 / 2 := by norm_num
    have e2 : (255 * (1 - 50 / 100 : ℚ)) = 255 / 2 := by norm_num
    have hf : ⌊(255 / 2 : ℚ)⌋ = 127 := by
      rw [Int.floor_eq_iff]
      norm_num
    unfold bar_color f32_as_u8
    rw [e1, e2, hf]
    norm_num
    decide

/-- Claim C5, witness for the amended theorem at `v = 50`. -/
theorem bar_color_truncates_witness :
    bar_color 50
      = ((⌊(255 * 50 / 100 : ℚ)⌋).toNat, (⌊(255 * (100 - 50) / 100 : ℚ)⌋).toNat, 0)
    ∧ bar_color 0 = (0, 255, 0)
    ∧ bar_color 100 = (255, 0, 0)
    ∧ bar_color 50 = (127, 127, 0) :=
  bar_color_truncates 50 (by norm_num) (by norm_num)

/-- Claim C7, counterexample: the height is computed in `u64` and passed
through a `u64 → u16` cast (`count as u16`, app.rs 168), which truncates
modulo 2^16: at `core_count = 65533` the requested height is
`65536 % 65536 = 0`, not `65533 + 1 + 2`. -/
theorem system_height_u16_wraps :
    system_section_height 65533 = 0
    ∧ system_section_height 65533 ≠ 65533 + 1 + 2 := by
  decide

/-- Claim C7, amended: for every core count with
`core_count + 3 ≤ 65535` (so the `u64 → u16` cast of the height is lossless),
the system section's requested height is exactly
`core_count + 1 (memory row) + 2 (border)` rows, which is exactly the row
count the cpu chart needs — one bar row per entry of the usage snapshot plus
one memory bar row plus the two border rows — with no clipping or blank
rows. -/
theorem system_section_fits (cpu_count : Nat) (usages : List ℚ)
    (hcast : cpu_count + 3 ≤ 65535) (hlen : usages.length = cpu_count) :
    system_section_height cpu_count = cpu_count + 1 + 2
    ∧ system_section_height cpu_count = cpu_chart_rows usages := by
  unfold system_section_height cpu_chart_rows
  constructor
  · exact Nat.mod_eq_of_lt (by omega)
  · rw [hlen, Nat.mod_eq_of_lt (by omega)]

/-- Claim C7, witness for the amended theorem at 8 cores. -/
theorem system_section_fits_witness :
    system_section_height 8 = 8 + 1 + 2
    ∧ system_section_height 8 = cpu_chart_rows (List.replicate 8 (0 : ℚ)) :=
  system_section_fits 8 (List.replicate 8 0) (by norm_num) (by simp)

/-- Claim C8: a fresh entry's status is the default
`{online: false, player_count: 0, max_players: 0, players: empty}`; after any
sequence of failed fetches it still equals that default; and the detail
panel then renders exactly the default-empty status lines
(`Status: Offline`, `Player Count: 0 / 0`, an empty `Players:` list) —
no error message appears anywhere in the output. -/
theorem default_until_first_success (ip : String) (errs : List String) :
    ServerState.new ip
      = { ip := ip, status := false, player_count := 0, max_players := 0,
          players := [] }
    ∧ List.foldl (fun s e => (s.update (.error e)).1) (ServerState.new ip) errs
      = ServerState.new ip
    ∧ server_details_lines
        (List.foldl (fun s e => (s.update (.error e)).1) (ServerState.new ip) errs)
      = ["Status: Offline", "Player Count: 0 / 0", "Players:"] := by
  have hfold :
      ∀ l, List.foldl (fun s e => (s.update (.error e)).1) (ServerState.new ip) l
        = ServerState.new ip := by
    intro l
    induction l with
    | nil => rfl
    | cons e es ih => exact ih
  refine ⟨rfl, hfold errs, ?_⟩
  rw [hfold errs]
  calc server_details_lines (ServerState.new ip)
      = server_details_lines (ServerState.new "") := rfl
    _ = ["Status: Offline", "Player Count: 0 / 0", "Players:"] := by decide

/-- Claim C9: with at least one configured address, one server state per
address, and any selection satisfying the invariant that a selected index is
in bounds, both navigation operations yield a selected index in
`[0, number of addresses)`, and the detail panel's indexed access into the
server-state list succeeds (never panics). -/
theorem navigation_keeps_index_in_bounds (ips : List String)
    (states : List ServerState) (sel : Option Nat)
    (hlen : states.length = ips.length) (hpos : 0 < ips.length)
    (hsel : ∀ i, sel = some i → i < ips.length) :
    (∃ j, list_state_next ips.length sel = some j ∧ j < ips.length
        ∧ (server_details states (list_state_next ips.length sel)).isSome)
    ∧ (∃ j, list_state_previous ips.length sel = some j ∧ j < ips.length
        ∧ (server_details states (list_state_previous ips.length sel)).isSome) := by
  have hdetails : ∀ j, j < ips.length →
      (server_details states (some j)).isSome = true := by
    intro j hj
    unfold server_details
    cases hget : states[j]? with
    | none =>
        have := List.getElem?_eq_none_iff.mp hget
        omega
    | some s => simp [hget]
  constructor
  · rcases sel with _ | i
    · exact ⟨0, rfl, hpos, hdetails 0 hpos⟩
    · by_cases h : i ≥ ips.length - 1
      · have hval : list_state_next ips.length (some i) = some 0 := by
          simp [list_state_next, h]
        rw [hval]
        exact ⟨0, rfl, hpos, hdetails 0 hpos⟩
      · have hlt : i + 1 < ips.length := by omega
        have hval : list_state_next ips.length (some i) = some (i + 1) := by
          simp [list_state_next, h]
        rw [hval]
        exact ⟨i + 1, rfl, hlt, hdetails (i + 1) hlt⟩
  · rcases sel with _ | i
    · exact ⟨0, rfl, hpos, hdetails 0 hpos⟩
    · have hi : i < ips.length := hsel i rfl
      by_cases h : i = 0
      · have hlt : ips.length - 1 < ips.length := by omega
        have hval : list_state_previous ips.length (some i)
            = some (ips.length - 1) := by
          simp [list_state_previous, h]
        rw [hval]
        exact ⟨ips.length - 1, rfl, hlt, hdetails _ hlt⟩
      · have hlt : i - 1 < ips.length := by omega
        have hval : list_state_previous ips.length (some i) = some (i - 1) := by
          simp [list_state_previous, h]
        rw [hval]
        exact ⟨i - 1, rfl, hlt, hdetails _ hlt⟩

/-- Claim C9, witness at the initialized application state: three addresses,
three fresh server states, index 0 selected. -/
theorem navigation_keeps_index_in_bounds_witness :
    (∃ j, list_state_next app0.ips.length (some 0) = some j ∧ j < app0.ips.length
        ∧ (server_details app0.server_states
            (list_state_next app0.ips.length (some 0))).isSome)
    ∧ (∃ j, list_state_previous app0.ips.length (some 0) = some j
        ∧ j < app0.ips.length
        ∧ (server_details app0.server_states
            (list_state_previous app0.ips.length (some 0))).isSome) :=
  navigation_keeps_index_in_bounds app0.ips app0.server_states (some 0)
    (by decide) (by decide)
    (fun i h => by simp only [Option.some.injEq] at h; subst h; decide)

end Craig
